import Mathlib

/-!
Shallow embedding of the HTTP proxy server (httpserver.py, main_blueprint.py,
shared_settings.py) for verification of its specification claims.

Modelling conventions:
  * Python strings are Lean `String`, byte sequences are `List Nat`.
  * `urlparse(self.path).hostname` is carried on the inbound request as an
    `Option String` field (Python yields `None` when no hostname parses).
  * The origin server (`urllib.request.urlopen`) is a parameter
    `origin : OutRequest → FetchResult`; an exception raised by `urlopen`
    is `FetchResult.err`.
  * `diskcache.Cache.get` is a parameter `cacheGet : String → Option CacheEntry`
    (`none` models a miss or an expired entry); the cache calls made by the
    handler are recorded as a trace of `CacheOp`.
  * Side effects of one request are collected in `Effects`: cache operations,
    outbound origin requests, log lines put on `ss.sse_queue`, and data sent
    to the client.
  * `BaseHTTPRequestHandler.send_error(code, msg)` logs
    "code %d, message %s" through the overridden `log_message` (which prepends
    the date/address stamp) and sends an error response; the error page body
    and the uniform per-request access-log line of `send_response` are
    abstracted away.
-/

/-- Global mutable proxy settings from shared_settings.py, as read by one
request handler (the admin UI writes them; a handler only reads). -/
structure Settings where
  url_whitelist : List String
  url_blacklist : List String
  ip_whitelist : List String
  ip_blacklist : List String
  allow_caching : Bool
  caching_timer : Nat
deriving DecidableEq

/-- One inbound client request as seen by ProxyHTTPHandler: `path` is
`self.path` (the absolute target URL), `hostname` is
`urlparse(self.path).hostname`, `clientIP` is `self.client_address[0]`,
`headers` is `self.headers`, `bodyStream` the bytes available on `self.rfile`,
and `logStamp` the date/address text `log_message` prepends to log lines. -/
structure InRequest where
  path : String
  hostname : Option String
  clientIP : String
  headers : List (String × String)
  bodyStream : List Nat
  logStamp : String
deriving DecidableEq

/-- Python membership test `hostname in list_of_strings` where the hostname may
be `None`: `None` never equals a string, so membership is false for `none`. -/
def omem (h : Option String) (l : List String) : Bool :=
  match h with
  | none => false
  | some s => l.contains s

/-- ProxyHTTPHandler.filter_request_url (httpserver.py lines 51-59), with the
parsed hostname passed in.  `if ss.url_whitelist` is Python list truthiness,
i.e. non-emptiness. -/
def filter_request_url (s : Settings) (url_hostname : Option String) : Bool :=
  if !s.url_whitelist.isEmpty && !(omem url_hostname s.url_whitelist) then
    false
  else if omem url_hostname s.url_blacklist && !(omem url_hostname s.url_whitelist) then
    false
  else
    true

/-- ProxyHTTPHandler.filter_request_ip (httpserver.py lines 72-79). -/
def filter_request_ip (s : Settings) (client_ip : String) : Bool :=
  if !s.ip_whitelist.isEmpty && !s.ip_whitelist.contains client_ip then
    false
  else if s.ip_blacklist.contains client_ip && !s.ip_whitelist.contains client_ip then
    false
  else
    true

/-- The combined filter test of the `filter_and_exceptions` wrapper
(httpserver.py line 137): `self.filter_request_ip() and self.filter_request_url()`. -/
def filterPass (s : Settings) (req : InRequest) : Bool :=
  filter_request_ip s req.clientIP && filter_request_url s req.hostname

/-- A cached response entry as stored by do_GET:
a dict of the origin response headers (as items) and the read content. -/
structure CacheEntry where
  headers : List (String × String)
  content : List Nat
deriving DecidableEq

/-- One call made on `ss.cache` by the handler. -/
inductive CacheOp where
  | get (key : String)
  | set (key : String) (entry : CacheEntry) (expire : Nat)
deriving DecidableEq

/-- The dynamic class of a Python exception, as distinguished by the
`isinstance` chain of ProxyHTTPHandler.handle_exception.  `httpError` is
`urllib.error.HTTPError` (a subclass of URLError, but checked first);
`urlError` is a URLError that is not an HTTPError; `other` covers every
class not otherwise listed (e.g. TypeError). -/
inductive PyExn where
  | valueError (msg : String)
  | httpError (code : Nat) (reason : String)
  | connectionReset
  | timeoutError
  | urlError (reason : String)
  | brokenPipe
  | osError (strerror : String)
  | other (msg : String)
deriving DecidableEq

/-- An outbound request the handler hands to `urlopen`: either a bare URL
(`headers = []`, no explicit headers beyond urllib defaults) or a
`urllib.request.Request` with an explicit header dict.  A header value is
`Option String` because Python may place `None` in the dict
(e.g. the Content-Type lookup on a request missing that header). -/
structure OutRequest where
  method : String
  url : String
  headers : List (String × Option String)
  body : Option (List Nat)
deriving DecidableEq

/-- Result of `urlopen`: a response (status, headers, fully read body) or a
raised exception. -/
inductive FetchResult where
  | ok (status : Nat) (headers : List (String × String)) (content : List Nat)
  | err (e : PyExn)
deriving DecidableEq

/-- Data sent back to the client: a normal response
(send_response + send_header* + end_headers + wfile.write*) with the list of
`wfile.write` payloads, or an error response via `send_error` (whose error
page body is abstracted). -/
inductive Sent where
  | response (status : Nat) (reason : String) (headers : List (String × String))
      (bodyWrites : List (List Nat))
  | error (status : Nat) (reason : String)
deriving DecidableEq

/-- The observable side effects of handling one request. `exn` records an
exception raised inside a method body, to be consumed by the
`filter_and_exceptions` wrapper. -/
structure Effects where
  cacheOps : List CacheOp := []
  originCalls : List OutRequest := []
  logs : List String := []
  sends : List Sent := []
  exn : Option PyExn := none
deriving DecidableEq

/-- The log line `send_error(code, message)` produces through
`log_error("code %d, message %s", code, message)` and the overridden
`log_message`, which prepends the date/address stamp. -/
def errLog (stamp : String) (code : Nat) (message : String) : String :=
  stamp ++ " code " ++ toString code ++ ", message " ++ message

/-- Default reason phrase `send_response(code)` takes from
`BaseHTTPRequestHandler.responses` when no explicit message is given
(only the codes this proxy can realistically relay matter). -/
def defaultReason (code : Nat) : String :=
  if code == 200 then "OK"
  else if code == 201 then "Created"
  else if code == 204 then "No Content"
  else if code == 301 then "Moved Permanently"
  else if code == 302 then "Found"
  else if code == 304 then "Not Modified"
  else if code == 404 then "Not Found"
  else if code == 500 then "Internal Server Error"
  else ""

/-- ProxyHTTPHandler.handle_exception (httpserver.py lines 100-118): the
`isinstance` chain mapped over the exception classes, yielding the log lines
put on `ss.sse_queue` and the `send_error` responses, in order.  The timeout
log line reproduces the source literally: line 107 is a plain string, not an
f-string, so the text "\x7bself.path\x7d" is logged verbatim. -/
def handle_exception (stamp : String) (e : PyExn) : List String × List Sent :=
  match e with
  | .valueError _ =>
      ([errLog stamp 400 "Bad Request"], [.error 400 "Bad Request"])
  | .httpError code reason =>
      ([errLog stamp code reason], [.error code reason])
  | .connectionReset =>
      (["* connection reset by remote host *"], [])
  | .timeoutError =>
      (["* timeout while accessing URL: \x7bself.path\x7d *",
        errLog stamp 504 "Gateway Timeout"],
       [.error 504 "Gateway Timeout"])
  | .urlError reason =>
      ([errLog stamp 502 reason], [.error 502 reason])
  | .brokenPipe =>
      (["* client disconnected before response could be sent *"], [])
  | .osError strerror =>
      (["* OS Error: " ++ strerror ++ " *", errLog stamp 500 "Internal Server Error"],
       [.error 500 "Internal Server Error"])
  | .other msg =>
      (["* unexpected Error: " ++ msg ++ " *", errLog stamp 500 "Internal Server Error"],
       [.error 500 "Internal Server Error"])

/-- The effects of a rejected request in the `filter_and_exceptions` wrapper
(httpserver.py line 138): `self.send_error(403, "Access Denied")` and nothing
else — the wrapped method body is never entered. -/
def rejectEffects (req : InRequest) : Effects :=
  { logs := [errLog req.logStamp 403 "Access Denied"],
    sends := [.error 403 "Access Denied"] }

/-- The `filter_and_exceptions` decorator (httpserver.py lines 121-146)
applied to the effects of a method body: reject with 403 before running it,
otherwise run it and route any raised exception through handle_exception. -/
def filter_and_exceptions (s : Settings) (req : InRequest) (body : Effects) : Effects :=
  if !(filter_request_ip s req.clientIP && filter_request_url s req.hostname) then
    rejectEffects req
  else
    match body.exn with
    | none => body
    | some e =>
        let handled := handle_exception req.logStamp e
        { body with
          logs := body.logs ++ handled.1,
          sends := body.sends ++ handled.2,
          exn := none }

/-- ASCII lower-casing of a character (HTTP header names are ASCII, so this
matches Python case folding on them). -/
def lowerChar (c : Char) : Char :=
  if 'A' ≤ c ∧ c ≤ 'Z' then Char.ofNat (c.toNat + 32) else c

/-- ASCII lower-casing of a string. -/
def asciiLower (s : String) : String := String.mk (s.data.map lowerChar)

/-- Case-insensitive first-match header lookup, as `email.message.Message`
subscripting behaves (looking up Content-Length yields `None` when the
header is absent). -/
def headerGet (hs : List (String × String)) (name : String) : Option String :=
  (hs.find? (fun p => asciiLower p.1 == asciiLower name)).map (fun p => p.2)

/-- Digits of a decimal literal; `none` when empty or a non-digit appears. -/
def parseDigits : List Char → Option Nat
  | [] => none
  | cs => cs.foldl
      (fun acc c => match acc with
        | none => none
        | some n => if c.isDigit then some (n * 10 + (c.toNat - 48)) else none)
      (some 0)

/-- Python whitespace characters stripped by `int()`. -/
def isSpaceChar (c : Char) : Bool :=
  c == ' ' || c == '\t' || c == '\n' || c == '\r' || c == '\x0b' || c == '\x0c'

/-- Strip leading and trailing whitespace from a character list. -/
def trimChars (cs : List Char) : List Char :=
  (((cs.dropWhile isSpaceChar).reverse).dropWhile isSpaceChar).reverse

/-- Python `int(s)` on a string: optional surrounding whitespace, optional
sign, decimal digits; `none` models the `ValueError` raised otherwise. -/
def pyIntStr (s : String) : Option Int :=
  match trimChars s.data with
  | '-' :: rest => (parseDigits rest).map (fun n => -(n : Int))
  | '+' :: rest => (parseDigits rest).map (fun n => (n : Int))
  | t => (parseDigits t).map (fun n => (n : Int))

/-- `self.rfile.read(n)`: at most `n` bytes from the stream (a negative `n`
reads to end of stream). -/
def pyRead (stream : List Nat) (n : Int) : List Nat :=
  if n < 0 then stream else stream.take n.toNat

/-- Insert a key into a Python dict modelled as an insertion-ordered
association list: an existing key keeps its position and takes the new value. -/
def dictInsert (d : List (String × String)) (k v : String) : List (String × String) :=
  if d.any (fun p => p.1 == k) then
    d.map (fun p => if p.1 == k then (k, v) else p)
  else
    d ++ [(k, v)]

/-- `headers = {}` followed by `headers[header] = value` for each inbound
header, as do_DELETE and do_PUT build their outbound header dict. -/
def pyDict (items : List (String × String)) : List (String × String) :=
  items.foldl (fun d p => dictInsert d p.1 p.2) []

/-- Substring test on character lists (used to count log lines containing a
given text). -/
def hasSub : List Char → List Char → Bool
  | hay, needle =>
    match hay with
    | [] => needle.isEmpty
    | _ :: t => needle.isPrefixOf hay || hasSub t needle

/-- The outbound request of a bare `urlopen(self.path)` call: method GET, no
explicit headers, no body. -/
def bareGet (url : String) : OutRequest :=
  { method := "GET", url := url, headers := [], body := none }

/-- ProxyHTTPHandler.do_GET body (httpserver.py lines 165-193), before the
decorator.  `ss.cache.get(self.path)` is always executed first; the cached
entry is served only when it exists and `ss.allow_caching` holds, otherwise
the URL is fetched and the result stored only when `ss.allow_caching` holds. -/
def do_GET_body (s : Settings) (req : InRequest)
    (cacheGet : String → Option CacheEntry) (origin : OutRequest → FetchResult) :
    Effects :=
  let outReq : OutRequest := bareGet req.path
  match cacheGet req.path, s.allow_caching with
  | some entry, true =>
      { cacheOps := [.get req.path],
        logs := ["* sent data from cache " ++ req.path ++ " *"],
        sends := [.response 200 "OK (from cache)" entry.headers [entry.content]] }
  | none, _ =>
      match origin outReq with
      | .err e => { cacheOps := [.get req.path], originCalls := [outReq], exn := some e }
      | .ok status hdrs content =>
          { cacheOps := [.get req.path] ++
              (if s.allow_caching then [.set req.path ⟨hdrs, content⟩ s.caching_timer] else []),
            originCalls := [outReq],
            sends := [.response status (defaultReason status) hdrs [content]] }
  | some _, false =>
      match origin outReq with
      | .err e => { cacheOps := [.get req.path], originCalls := [outReq], exn := some e }
      | .ok status hdrs content =>
          { cacheOps := [.get req.path],
            originCalls := [outReq],
            sends := [.response status (defaultReason status) hdrs [content]] }

/-- The shared tail of do_POST, do_DELETE and do_PUT
(`res = urlopen(req)` … `self.wfile.write(res_content)`): one outbound
request, relaying the origin status, headers and fully read body to the
client, or recording the raised exception. -/
def relay (outReq : OutRequest) (fr : FetchResult) : Effects :=
  match fr with
  | .err e => { originCalls := [outReq], exn := some e }
  | .ok status hdrs content =>
      { originCalls := [outReq],
        sends := [.response status (defaultReason status) hdrs [content]] }

/-- ProxyHTTPHandler.do_POST body (httpserver.py lines 205-225):
`int()` of the Content-Length header raises TypeError (an unlisted class)
when the header is absent and ValueError when unparseable; the outbound
header dict carries the inbound Content-Type and a Content-Length recomputed
as `len(post_data)`. -/
def do_POST_body (req : InRequest) (origin : OutRequest → FetchResult) : Effects :=
  match headerGet req.headers "Content-Length" with
  | none => { exn := some (.other "int() argument must be a string, not NoneType") }
  | some cl =>
      match pyIntStr cl with
      | none => { exn := some (.valueError "invalid literal for int() with base 10") }
      | some n =>
          let post_data := pyRead req.bodyStream n
          let outReq : OutRequest :=
            { method := "POST", url := req.path,
              headers := [("Content-Type", headerGet req.headers "Content-Type"),
                          ("Content-Length", some (toString post_data.length))],
              body := some post_data }
          relay outReq (origin outReq)

/-- ProxyHTTPHandler.do_DELETE body (httpserver.py lines 237-256): forwards
with a verbatim copy of the inbound headers and no body. -/
def do_DELETE_body (req : InRequest) (origin : OutRequest → FetchResult) : Effects :=
  let outReq : OutRequest :=
    { method := "DELETE", url := req.path,
      headers := (pyDict req.headers).map (fun p => (p.1, some p.2)),
      body := none }
  relay outReq (origin outReq)

/-- ProxyHTTPHandler.do_OPTIONS body (httpserver.py lines 267-270): a
synthetic 200 with the Allow list and Content-Length 0, no origin contact,
no body write. -/
def do_OPTIONS_body : Effects :=
  { sends := [.response 200 (defaultReason 200)
      [("Allow", "OPTIONS, GET, HEAD, POST, PUT, DELETE, CONNECT"),
       ("Content-Length", "0")] []] }

/-- ProxyHTTPHandler.do_PUT body (httpserver.py lines 281-304): the outbound
header dict is a verbatim copy of every inbound header (Content-Length
included); the `int()` of the Content-Length header defaults to 0 when
the header is absent. -/
def do_PUT_body (req : InRequest) (origin : OutRequest → FetchResult) : Effects :=
  let hdrs := (pyDict req.headers).map (fun p => (p.1, some p.2))
  match (match headerGet req.headers "Content-Length" with
         | none => some (0 : Int)
         | some cl => pyIntStr cl) with
  | none => { exn := some (.valueError "invalid literal for int() with base 10") }
  | some n =>
      let request_body := pyRead req.bodyStream n
      let outReq : OutRequest :=
        { method := "PUT", url := req.path, headers := hdrs, body := some request_body }
      relay outReq (origin outReq)

/-- ProxyHTTPHandler.do_TRACE body (httpserver.py line 310). -/
def do_TRACE_body (req : InRequest) : Effects :=
  { logs := [errLog req.logStamp 405 "Method Not Allowed"],
    sends := [.error 405 "Method Not Allowed"] }

/-- ProxyHTTPHandler.do_CONNECT body (httpserver.py line 315). -/
def do_CONNECT_body (req : InRequest) : Effects :=
  { logs := [errLog req.logStamp 405 "Method Not Allowed"],
    sends := [.error 405 "Method Not Allowed"] }

/-- ProxyHTTPHandler.do_HEAD body (httpserver.py lines 321-325):
`urlopen(self.path)` issues a GET with no explicit headers and no body; the
handler relays status and headers and writes no body to the client. -/
def do_HEAD_body (req : InRequest) (origin : OutRequest → FetchResult) : Effects :=
  let outReq : OutRequest := bareGet req.path
  match origin outReq with
  | .err e => { originCalls := [outReq], exn := some e }
  | .ok status hdrs _ =>
      { originCalls := [outReq],
        sends := [.response status (defaultReason status) hdrs []] }

/-- The decorated do_GET. -/
def do_GET (s : Settings) (req : InRequest)
    (cacheGet : String → Option CacheEntry) (origin : OutRequest → FetchResult) : Effects :=
  filter_and_exceptions s req (do_GET_body s req cacheGet origin)

/-- The decorated do_POST. -/
def do_POST (s : Settings) (req : InRequest) (origin : OutRequest → FetchResult) : Effects :=
  filter_and_exceptions s req (do_POST_body req origin)

/-- The decorated do_DELETE. -/
def do_DELETE (s : Settings) (req : InRequest) (origin : OutRequest → FetchResult) : Effects :=
  filter_and_exceptions s req (do_DELETE_body req origin)

/-- The decorated do_OPTIONS. -/
def do_OPTIONS (s : Settings) (req : InRequest) : Effects :=
  filter_and_exceptions s req do_OPTIONS_body

/-- The decorated do_PUT. -/
def do_PUT (s : Settings) (req : InRequest) (origin : OutRequest → FetchResult) : Effects :=
  filter_and_exceptions s req (do_PUT_body req origin)

/-- The decorated do_TRACE. -/
def do_TRACE (s : Settings) (req : InRequest) : Effects :=
  filter_and_exceptions s req (do_TRACE_body req)

/-- The decorated do_CONNECT. -/
def do_CONNECT (s : Settings) (req : InRequest) : Effects :=
  filter_and_exceptions s req (do_CONNECT_body req)

/-- The decorated do_HEAD. -/
def do_HEAD (s : Settings) (req : InRequest) (origin : OutRequest → FetchResult) : Effects :=
  filter_and_exceptions s req (do_HEAD_body req origin)

/-- BaseHTTPRequestHandler method dispatch: the `do_`-method run for each of
the eight methods ProxyHTTPHandler implements; `none` for any other method. -/
def handleMethod (m : String) (s : Settings) (req : InRequest)
    (cacheGet : String → Option CacheEntry) (origin : OutRequest → FetchResult) :
    Option Effects :=
  if m == "GET" then some (do_GET s req cacheGet origin)
  else if m == "POST" then some (do_POST s req origin)
  else if m == "DELETE" then some (do_DELETE s req origin)
  else if m == "OPTIONS" then some (do_OPTIONS s req)
  else if m == "PUT" then some (do_PUT s req origin)
  else if m == "TRACE" then some (do_TRACE s req)
  else if m == "CONNECT" then some (do_CONNECT s req)
  else if m == "HEAD" then some (do_HEAD s req origin)
  else none

/-- `ss.sse_queue.put(line)`: queue.Queue backed by a FIFO deque, appended at
the right. -/
def queuePut (q : List String) (l : String) : List String := q ++ [l]

/-- The `/data` route of main_blueprint.py (lines 86-87):
`send_data = list(ss.sse_queue.queue)` then `ss.sse_queue.queue.clear()` —
returns the whole buffered contents in push order and empties the queue. -/
def dataDrain (q : List String) : List String × List String := (q, [])

/-- One operation on the event sink: a producer push or a `/data` drain. -/
inductive QOp where
  | put (l : String)
  | drain
deriving DecidableEq

/-- The lines pushed by a trace of sink operations, in order. -/
def qopPushed : List QOp → List String
  | [] => []
  | QOp.put l :: rest => l :: qopPushed rest
  | QOp.drain :: rest => qopPushed rest

/-- Run a trace of sink operations from a starting queue; yields the final
queue contents and the list of what every drain returned, in drain order. -/
def runOps : List QOp → List String → List String × List (List String)
  | [], q => (q, [])
  | QOp.put l :: rest, q => runOps rest (queuePut q l)
  | QOp.drain :: rest, q =>
      let step := dataDrain q
      let r := runOps rest step.2
      (r.1, step.1 :: r.2)

/-- A date/address stamp as `log_message` would produce it. -/
def stamp0 : String := "12/Oct/2026 10:00:00 10.0.0.7"

/-- A plain GET request for http://example.com/a from 10.0.0.7 carrying one
custom inbound header. -/
def reqA : InRequest :=
  { path := "http://example.com/a", hostname := some "example.com",
    clientIP := "10.0.0.7", headers := [("X-Foo", "bar")], bodyStream := [],
    logStamp := stamp0 }

/-- A request whose target has no parseable hostname (origin-form request
line such as "GET /index.html"). -/
def reqNoHost : InRequest :=
  { path := "/index.html", hostname := none, clientIP := "10.0.0.7",
    headers := [], bodyStream := [], logStamp := stamp0 }

/-- A request from the blacklisted client 10.0.0.5. -/
def reqBlocked : InRequest :=
  { path := "http://example.com/a", hostname := some "example.com",
    clientIP := "10.0.0.5", headers := [], bodyStream := [],
    logStamp := "12/Oct/2026 10:00:00 10.0.0.5" }

/-- A request with a body, whose declared Content-Length (5) exceeds the 3
bytes actually available on the stream. -/
def reqBody : InRequest :=
  { path := "http://example.com/a", hostname := some "example.com",
    clientIP := "10.0.0.7",
    headers := [("Content-Type", "text/plain"), ("Content-Length", "5")],
    bodyStream := [104, 105, 33], logStamp := stamp0 }

/-- Settings with all filter lists empty and the given caching flag. -/
def sOpen (caching : Bool) : Settings := ⟨[], [], [], [], caching, 60⟩

/-- Settings with ip-blacklist [10.0.0.5] and every other list empty. -/
def sBlockIP : Settings := ⟨[], [], [], ["10.0.0.5"], true, 60⟩

/-- Settings with a non-empty URL whitelist and every other list empty. -/
def sUrlWl : Settings := ⟨["example.com"], [], [], [], true, 60⟩

/-- A cache in which every lookup misses. -/
def cacheNone : String → Option CacheEntry := fun _ => none

/-- The cached entry for body "hello". -/
def entryHello : CacheEntry :=
  ⟨[("Content-Type", "text/plain")], [104, 101, 108, 108, 111]⟩

/-- A cache in which every lookup returns the unexpired "hello" entry. -/
def cacheHello : String → Option CacheEntry := fun _ => some entryHello

/-- An origin that answers every request with 200 and body "hello". -/
def originOK : OutRequest → FetchResult :=
  fun _ => .ok 200 [("Content-Type", "text/plain")] [104, 101, 108, 108, 111]

lemma foldl_queuePut (ls : List String) (q : List String) :
    ls.foldl queuePut q = q ++ ls := by
  induction ls generalizing q with
  | nil => simp
  | cons l rest ih => simp [List.foldl_cons, queuePut, ih]

lemma runOps_conservation (ops : List QOp) (q : List String) :
    ((runOps ops q).2).flatten ++ (runOps ops q).1 = q ++ qopPushed ops := by
  induction ops generalizing q with
  | nil => simp [runOps, qopPushed]
  | cons op rest ih =>
      cases op with
      | put l => simp [runOps, qopPushed, queuePut, ih]
      | drain => simp [runOps, qopPushed, dataDrain, ih]

lemma filter_request_ip_eq (s : Settings) (ip : String) :
    filter_request_ip s ip =
      ((s.ip_whitelist.isEmpty || s.ip_whitelist.contains ip) &&
       (!s.ip_blacklist.contains ip || s.ip_whitelist.contains ip)) := by
  unfold filter_request_ip
  cases h1 : s.ip_whitelist.isEmpty <;>
    cases h2 : s.ip_whitelist.contains ip <;>
      cases h3 : s.ip_blacklist.contains ip <;> simp [h1, h2, h3]

lemma filter_request_url_eq (s : Settings) (h : Option String) :
    filter_request_url s h =
      ((s.url_whitelist.isEmpty || omem h s.url_whitelist) &&
       (!(omem h s.url_blacklist) || omem h s.url_whitelist)) := by
  unfold filter_request_url
  cases h1 : s.url_whitelist.isEmpty <;>
    cases h2 : omem h s.url_whitelist <;>
      cases h3 : omem h s.url_blacklist <;> simp [h1, h2, h3]

/-- C1: the filter decision applies whitelist precedence independently per
dimension — a non-empty whitelist with the value absent rejects even with an
empty blacklist; an empty whitelist with the value blacklisted rejects; a
value in both lists is allowed (whitelist wins); and the wrapper rejects the
request whenever either the IP dimension or the hostname dimension fails. -/
theorem filter_whitelist_precedence (s : Settings) (ip : String) (host : String) :
    ((s.ip_whitelist ≠ [] → s.ip_whitelist.contains ip = false →
        filter_request_ip s ip = false) ∧
     (s.ip_whitelist = [] → s.ip_blacklist.contains ip = true →
        filter_request_ip s ip = false) ∧
     (s.ip_whitelist.contains ip = true → s.ip_blacklist.contains ip = true →
        filter_request_ip s ip = true)) ∧
    ((s.url_whitelist ≠ [] → omem (some host) s.url_whitelist = false →
        filter_request_url s (some host) = false) ∧
     (s.url_whitelist = [] → omem (some host) s.url_blacklist = true →
        filter_request_url s (some host) = false) ∧
     (omem (some host) s.url_whitelist = true → omem (some host) s.url_blacklist = true →
        filter_request_url s (some host) = true)) ∧
    (∀ (req : InRequest) (body : Effects),
      filter_request_ip s req.clientIP = false ∨ filter_request_url s req.hostname = false →
      filter_and_exceptions s req body = rejectEffects req) := by
  refine ⟨⟨?_, ?_, ?_⟩, ⟨?_, ?_, ?_⟩, ?_⟩
  · intro h1 h2
    rw [filter_request_ip_eq, h2]
    simp [List.isEmpty_iff, h1]
  · intro h1 h2
    rw [filter_request_ip_eq, h2]
    simp [h1]
  · intro h1 h2
    rw [filter_request_ip_eq, h1, h2]
    simp
  · intro h1 h2
    rw [filter_request_url_eq, h2]
    simp [List.isEmpty_iff, h1]
  · intro h1 h2
    rw [filter_request_url_eq, h2]
    simp [omem, h1]
  · intro h1 h2
    rw [filter_request_url_eq, h1, h2]
    simp
  · intro req body hfail
    unfold filter_and_exceptions
    rcases hfail with h | h <;> simp [h]

/-- Witness for C1: concrete instantiations discharging every hypothesis of
`filter_whitelist_precedence`. -/
theorem filter_whitelist_precedence_witness :
    (filter_request_ip ⟨[], [], ["9.9.9.9"], [], true, 60⟩ "1.2.3.4" = false) ∧
    (filter_request_ip ⟨[], [], [], ["1.2.3.4"], true, 60⟩ "1.2.3.4" = false) ∧
    (filter_request_ip ⟨[], [], ["1.2.3.4"], ["1.2.3.4"], true, 60⟩ "1.2.3.4" = true) ∧
    (filter_request_url ⟨["allowed.com"], [], [], [], true, 60⟩ (some "example.com") = false) ∧
    (filter_request_url ⟨[], ["example.com"], [], [], true, 60⟩ (some "example.com") = false) ∧
    (filter_request_url ⟨["example.com"], ["example.com"], [], [], true, 60⟩
        (some "example.com") = true) ∧
    (filter_and_exceptions ⟨[], [], [], ["1.2.3.4"], true, 60⟩
        ⟨"http://example.com/", some "example.com", "1.2.3.4", [], [], "stamp"⟩ {} =
      rejectEffects ⟨"http://example.com/", some "example.com", "1.2.3.4", [], [], "stamp"⟩) :=
  ⟨((filter_whitelist_precedence ⟨[], [], ["9.9.9.9"], [], true, 60⟩ "1.2.3.4" "x").1).1
      (by decide) (by decide),
   ((filter_whitelist_precedence ⟨[], [], [], ["1.2.3.4"], true, 60⟩ "1.2.3.4" "x").1).2.1
      (by decide) (by decide),
   ((filter_whitelist_precedence ⟨[], [], ["1.2.3.4"], ["1.2.3.4"], true, 60⟩ "1.2.3.4" "x").1).2.2
      (by decide) (by decide),
   ((filter_whitelist_precedence ⟨["allowed.com"], [], [], [], true, 60⟩ "x"
        "example.com").2.1).1 (by decide) (by decide),
   ((filter_whitelist_precedence ⟨[], ["example.com"], [], [], true, 60⟩ "x"
        "example.com").2.1).2.1 (by decide) (by decide),
   ((filter_whitelist_precedence ⟨["example.com"], ["example.com"], [], [], true, 60⟩ "x"
        "example.com").2.1).2.2 (by decide) (by decide),
   ((filter_whitelist_precedence ⟨[], [], [], ["1.2.3.4"], true, 60⟩ "x" "y").2.2)
      ⟨"http://example.com/", some "example.com", "1.2.3.4", [], [], "stamp"⟩ {}
      (Or.inl (by decide))⟩

/-- C9: pushing lines L1..Ln then draining returns exactly [L1..Ln] in push
order and empties the sink; a drain with no intervening pushes returns an
empty result; and over any operation trace the concatenation of all drain
results followed by the residual queue equals the pushed lines in order, so
no line is ever delivered by two different drain calls. -/
theorem event_drain_exactness (ls : List String) (ops : List QOp) :
    dataDrain (ls.foldl queuePut []) = (ls, []) ∧
    dataDrain (dataDrain (ls.foldl queuePut [])).2 = ([], []) ∧
    ((runOps ops []).2).flatten ++ (runOps ops []).1 = qopPushed ops := by
  refine ⟨?_, ?_, ?_⟩
  · rw [foldl_queuePut]
    simp [dataDrain]
  · simp [dataDrain]
  · simpa using runOps_conservation ops []

lemma filter_and_exceptions_reject (s : Settings) (req : InRequest) (body : Effects)
    (hp : filterPass s req = false) :
    filter_and_exceptions s req body = rejectEffects req := by
  unfold filter_and_exceptions
  unfold filterPass at hp
  simp [hp]

lemma filter_and_exceptions_pass (s : Settings) (req : InRequest) (body : Effects)
    (hp : filterPass s req = true) (hb : body.exn = none) :
    filter_and_exceptions s req body = body := by
  unfold filter_and_exceptions
  unfold filterPass at hp
  simp [hp, hb]

lemma filter_and_exceptions_exn (s : Settings) (req : InRequest) (body : Effects) (e : PyExn)
    (hp : filterPass s req = true) (hb : body.exn = some e) :
    filter_and_exceptions s req body =
      { body with
        logs := body.logs ++ (handle_exception req.logStamp e).1,
        sends := body.sends ++ (handle_exception req.logStamp e).2,
        exn := none } := by
  unfold filter_and_exceptions
  unfold filterPass at hp
  simp [hp, hb]

lemma filter_and_exceptions_trace (s : Settings) (req : InRequest) (body : Effects)
    (hp : filterPass s req = true) :
    (filter_and_exceptions s req body).cacheOps = body.cacheOps ∧
    (filter_and_exceptions s req body).originCalls = body.originCalls := by
  cases hb : body.exn with
  | none => rw [filter_and_exceptions_pass s req body hp hb]; exact ⟨rfl, rfl⟩
  | some e => rw [filter_and_exceptions_exn s req body e hp hb]; exact ⟨rfl, rfl⟩

lemma do_GET_body_nocache (s : Settings) (req : InRequest)
    (g : String → Option CacheEntry) (o : OutRequest → FetchResult)
    (hc : s.allow_caching = false) :
    (do_GET_body s req g o).cacheOps = [CacheOp.get req.path] ∧
    (do_GET_body s req g o).originCalls = [bareGet req.path] := by
  unfold do_GET_body
  rw [hc]
  cases hg : g req.path <;> cases ho : o (bareGet req.path) <;> simp [hg, ho]

/-- C2 counterexample: with caching disabled and an entry present from an
earlier enabled period, `ss.cache.get` is still invoked by do_GET (line 165
runs unconditionally), refuting "the cache is not consulted: get is not
invoked". -/
theorem cache_get_invoked_when_disabled :
    (sOpen false).allow_caching = false ∧
    cacheHello reqA.path = some entryHello ∧
    (do_GET (sOpen false) reqA cacheHello originOK).cacheOps =
      [CacheOp.get "http://example.com/a"] :=
  ⟨rfl, rfl, rfl⟩

/-- C2 (amended): while caching is disabled, do_GET still issues exactly one
`cache.get` for the URL (whose result is ignored), never calls `cache.set`,
and takes the forwarding path exactly once per request, even when an entry
for that URL exists from an earlier enabled period. -/
theorem cache_bypass_forwarding (s : Settings) (req : InRequest)
    (g : String → Option CacheEntry) (o : OutRequest → FetchResult)
    (hc : s.allow_caching = false) (hp : filterPass s req = true) :
    (do_GET s req g o).cacheOps = [CacheOp.get req.path] ∧
    (do_GET s req g o).originCalls = [bareGet req.path] := by
  have ht := filter_and_exceptions_trace s req (do_GET_body s req g o) hp
  have hb := do_GET_body_nocache s req g o hc
  unfold do_GET
  rw [ht.1, ht.2]
  exact hb

/-- Witness for the amended C2 theorem at a concrete disabled-caching run with
a pre-existing cache entry. -/
theorem cache_bypass_forwarding_witness :
    (sOpen false).allow_caching = false ∧ filterPass (sOpen false) reqA = true ∧
    (do_GET (sOpen false) reqA cacheHello originOK).cacheOps = [CacheOp.get reqA.path] ∧
    (do_GET (sOpen false) reqA cacheHello originOK).originCalls = [bareGet reqA.path] :=
  ⟨rfl, rfl,
   (cache_bypass_forwarding (sOpen false) reqA cacheHello originOK rfl rfl).1,
   (cache_bypass_forwarding (sOpen false) reqA cacheHello originOK rfl rfl).2⟩

/-- C3: with caching enabled and an unexpired entry for the full URL, do_GET
serves the stored headers and body verbatim with status 200 and reason
"OK (from cache)", logs the cache-hit line, and never contacts the origin. -/
theorem cache_hit_served (s : Settings) (req : InRequest)
    (g : String → Option CacheEntry) (o : OutRequest → FetchResult) (entry : CacheEntry)
    (hp : filterPass s req = true) (hc : s.allow_caching = true)
    (hg : g req.path = some entry) :
    (do_GET s req g o).sends =
      [Sent.response 200 "OK (from cache)" entry.headers [entry.content]] ∧
    (do_GET s req g o).logs = ["* sent data from cache " ++ req.path ++ " *"] ∧
    (do_GET s req g o).originCalls = [] ∧
    (do_GET s req g o).cacheOps = [CacheOp.get req.path] := by
  have hb : do_GET_body s req g o =
      { cacheOps := [CacheOp.get req.path],
        logs := ["* sent data from cache " ++ req.path ++ " *"],
        sends := [Sent.response 200 "OK (from cache)" entry.headers [entry.content]] } := by
    unfold do_GET_body
    rw [hg, hc]
  unfold do_GET
  rw [filter_and_exceptions_pass s req _ hp (by rw [hb])]
  rw [hb]
  exact ⟨rfl, rfl, rfl, rfl⟩

/-- Witness for C3 at a concrete enabled-caching run with the "hello" entry
cached. -/
theorem cache_hit_served_witness :
    filterPass (sOpen true) reqA = true ∧ (sOpen true).allow_caching = true ∧
    cacheHello reqA.path = some entryHello ∧
    (do_GET (sOpen true) reqA cacheHello originOK).sends =
      [Sent.response 200 "OK (from cache)" entryHello.headers [entryHello.content]] ∧
    (do_GET (sOpen true) reqA cacheHello originOK).originCalls = [] :=
  ⟨rfl, rfl, rfl,
   (cache_hit_served (sOpen true) reqA cacheHello originOK entryHello rfl rfl rfl).1,
   (cache_hit_served (sOpen true) reqA cacheHello originOK entryHello rfl rfl rfl).2.2.1⟩

lemma do_GET_body_err (s : Settings) (req : InRequest)
    (g : String → Option CacheEntry) (e : PyExn) (hmiss : g req.path = none) :
    do_GET_body s req g (fun _ => FetchResult.err e) =
      { cacheOps := [CacheOp.get req.path], originCalls := [bareGet req.path],
        exn := some e } := by
  unfold do_GET_body
  rw [hmiss]

lemma do_GET_err_sends (s : Settings) (req : InRequest)
    (g : String → Option CacheEntry) (e : PyExn)
    (hp : filterPass s req = true) (hmiss : g req.path = none) :
    (do_GET s req g (fun _ => FetchResult.err e)).sends =
      (handle_exception req.logStamp e).2 ∧
    (do_GET s req g (fun _ => FetchResult.err e)).logs =
      (handle_exception req.logStamp e).1 := by
  unfold do_GET
  rw [do_GET_body_err s req g e hmiss,
      filter_and_exceptions_exn s req _ e hp (by rfl)]
  exact ⟨rfl, rfl⟩

/-- C4: a forward raising a timeout yields client status 504 with exactly one
log line containing "timeout" (the explicit timeout log; the send_error log
line "code 504, message Gateway Timeout" does not contain the lowercase
text, provided the date/address stamp does not); a URLError that is not an
HTTPError yields 502 with the underlying reason; an HTTPError is relayed
with its exact status code and reason. -/
theorem error_mapping (s : Settings) (req : InRequest)
    (g : String → Option CacheEntry) (code : Nat) (reason : String)
    (hp : filterPass s req = true) (hmiss : g req.path = none)
    (hstamp : hasSub (errLog req.logStamp 504 "Gateway Timeout").data
        "timeout".data = false) :
    ((do_GET s req g (fun _ => FetchResult.err PyExn.timeoutError)).sends =
        [Sent.error 504 "Gateway Timeout"] ∧
     ((do_GET s req g (fun _ => FetchResult.err PyExn.timeoutError)).logs.countP
        (fun l => hasSub l.data "timeout".data)) = 1) ∧
    (do_GET s req g (fun _ => FetchResult.err (PyExn.urlError reason))).sends =
      [Sent.error 502 reason] ∧
    (do_GET s req g (fun _ => FetchResult.err (PyExn.httpError code reason))).sends =
      [Sent.error code reason] := by
  refine ⟨⟨?_, ?_⟩, ?_, ?_⟩
  · exact (do_GET_err_sends s req g PyExn.timeoutError hp hmiss).1
  · rw [(do_GET_err_sends s req g PyExn.timeoutError hp hmiss).2]
    show List.countP _ ["* timeout while accessing URL: \x7bself.path\x7d *",
        errLog req.logStamp 504 "Gateway Timeout"] = 1
    rw [List.countP_cons, List.countP_cons]
    simp [hstamp]
    decide
  · exact (do_GET_err_sends s req g (PyExn.urlError reason) hp hmiss).1
  · exact (do_GET_err_sends s req g (PyExn.httpError code reason) hp hmiss).1

/-- Witness for C4 at a concrete timed-out forward with the stamp
"12/Oct/2026 10:00:00 10.0.0.7". -/
theorem error_mapping_witness :
    filterPass (sOpen true) reqA = true ∧ cacheNone reqA.path = none ∧
    hasSub (errLog reqA.logStamp 504 "Gateway Timeout").data "timeout".data = false ∧
    (do_GET (sOpen true) reqA cacheNone (fun _ => FetchResult.err PyExn.timeoutError)).sends =
      [Sent.error 504 "Gateway Timeout"] ∧
    ((do_GET (sOpen true) reqA cacheNone
        (fun _ => FetchResult.err PyExn.timeoutError)).logs.countP
      (fun l => hasSub l.data "timeout".data)) = 1 ∧
    (do_GET (sOpen true) reqA cacheNone
        (fun _ => FetchResult.err (PyExn.urlError "connection refused"))).sends =
      [Sent.error 502 "connection refused"] ∧
    (do_GET (sOpen true) reqA cacheNone
        (fun _ => FetchResult.err (PyExn.httpError 418 "Teapot"))).sends =
      [Sent.error 418 "Teapot"] :=
  ⟨rfl, rfl, by decide,
   ((error_mapping (sOpen true) reqA cacheNone 418 "connection refused"
      rfl rfl (by decide)).1).1,
   ((error_mapping (sOpen true) reqA cacheNone 418 "connection refused"
      rfl rfl (by decide)).1).2,
   (error_mapping (sOpen true) reqA cacheNone 418 "connection refused"
      rfl rfl (by decide)).2.1,
   (error_mapping (sOpen true) reqA cacheNone 418 "Teapot"
      rfl rfl (by decide)).2.2⟩

lemma handleMethod_reject (s : Settings) (req : InRequest)
    (g : String → Option CacheEntry) (o : OutRequest → FetchResult)
    (hrej : filterPass s req = false) :
    ∀ (m : String) (eff : Effects), handleMethod m s req g o = some eff →
      eff = rejectEffects req := by
  have hw : ∀ body : Effects, filter_and_exceptions s req body = rejectEffects req :=
    fun body => filter_and_exceptions_reject s req body hrej
  intro m eff h
  unfold handleMethod at h
  simp only [do_GET, do_POST, do_DELETE, do_OPTIONS, do_PUT, do_TRACE, do_CONNECT,
    do_HEAD, hw] at h
  split_ifs at h <;> simp_all

/-- C5: a request rejected by the filter receives exactly the 403
"Access Denied" error, with no forward to the origin and no cache read or
write, whichever implemented method it uses. -/
theorem filter_reject_no_side_effects (s : Settings) (req : InRequest)
    (g : String → Option CacheEntry) (o : OutRequest → FetchResult)
    (hrej : filterPass s req = false) :
    (do_GET s req g o).sends = [Sent.error 403 "Access Denied"] ∧
    (do_GET s req g o).originCalls = [] ∧
    (do_GET s req g o).cacheOps = [] ∧
    (∀ (m : String) (eff : Effects), handleMethod m s req g o = some eff →
      eff.sends = [Sent.error 403 "Access Denied"] ∧
      eff.originCalls = [] ∧ eff.cacheOps = []) := by
  have hg : do_GET s req g o = rejectEffects req := by
    unfold do_GET
    exact filter_and_exceptions_reject s req _ hrej
  rw [hg]
  refine ⟨rfl, rfl, rfl, ?_⟩
  intro m eff h
  rw [handleMethod_reject s req g o hrej m eff h]
  exact ⟨rfl, rfl, rfl⟩

/-- Witness for C5 at the spec scenario: client IP 10.0.0.5 with
ip-blacklist [10.0.0.5] and empty ip-whitelist. -/
theorem filter_reject_no_side_effects_witness :
    filterPass sBlockIP reqBlocked = false ∧
    (do_GET sBlockIP reqBlocked cacheHello originOK).sends =
      [Sent.error 403 "Access Denied"] ∧
    (do_GET sBlockIP reqBlocked cacheHello originOK).originCalls = [] ∧
    (do_GET sBlockIP reqBlocked cacheHello originOK).cacheOps = [] :=
  ⟨rfl,
   (filter_reject_no_side_effects sBlockIP reqBlocked cacheHello originOK rfl).1,
   (filter_reject_no_side_effects sBlockIP reqBlocked cacheHello originOK rfl).2.1,
   (filter_reject_no_side_effects sBlockIP reqBlocked cacheHello originOK rfl).2.2.1⟩

lemma do_GET_body_origin (s : Settings) (req : InRequest)
    (g : String → Option CacheEntry) (o : OutRequest → FetchResult) :
    ∀ r ∈ (do_GET_body s req g o).originCalls, r = bareGet req.path := by
  unfold do_GET_body
  cases hg : g req.path <;> cases hc : s.allow_caching <;>
    cases ho : o (bareGet req.path) <;> simp [hg, hc, ho]

lemma do_HEAD_body_origin (req : InRequest) (o : OutRequest → FetchResult) :
    ∀ r ∈ (do_HEAD_body req o).originCalls, r = bareGet req.path := by
  unfold do_HEAD_body
  cases ho : o (bareGet req.path) <;> simp [ho]

/-- C6 counterexample: a GET (and a HEAD) whose inbound request carries the
header X-Foo: bar is forwarded by `urlopen(self.path)` with an empty explicit
header set — the inbound headers are not sent to the origin, refuting
"the outbound request is issued with the inbound request headers". -/
theorem get_head_inbound_headers_not_sent :
    reqA.headers = [("X-Foo", "bar")] ∧
    (do_GET (sOpen true) reqA cacheNone originOK).originCalls.map OutRequest.headers =
      [[]] ∧
    (do_HEAD (sOpen true) reqA originOK).originCalls.map OutRequest.headers = [[]] ∧
    (([] : List (String × Option String)) ≠
      reqA.headers.map (fun p => (p.1, some p.2))) :=
  ⟨rfl, rfl, rfl, by decide⟩

/-- C6 (amended): every origin call issued by do_GET and do_HEAD is the bare
`urlopen(self.path)` fetch — no explicit headers (in particular none of the
inbound headers) and no body — and a HEAD response writes headers only, with
no body written to the client. -/
theorem get_head_outbound_bare (s : Settings) (req : InRequest)
    (g : String → Option CacheEntry) (o : OutRequest → FetchResult)
    (st : Nat) (hs : List (String × String)) (c : List Nat)
    (hp : filterPass s req = true) :
    (∀ r ∈ (do_GET s req g o).originCalls, r = bareGet req.path) ∧
    (∀ r ∈ (do_HEAD s req o).originCalls, r = bareGet req.path) ∧
    (bareGet req.path).headers = [] ∧ (bareGet req.path).body = none ∧
    (do_HEAD s req (fun _ => FetchResult.ok st hs c)).sends =
      [Sent.response st (defaultReason st) hs []] := by
  have h1 := (filter_and_exceptions_trace s req (do_GET_body s req g o) hp).2
  have h2 := (filter_and_exceptions_trace s req (do_HEAD_body req o) hp).2
  refine ⟨?_, ?_, rfl, rfl, ?_⟩
  · intro r hr
    exact do_GET_body_origin s req g o r (by rw [do_GET] at hr; rw [h1] at hr; exact hr)
  · intro r hr
    exact do_HEAD_body_origin req o r (by rw [do_HEAD] at hr; rw [h2] at hr; exact hr)
  · have hb : do_HEAD_body req (fun _ => FetchResult.ok st hs c) =
        { originCalls := [bareGet req.path],
          sends := [Sent.response st (defaultReason st) hs []] } := by
      unfold do_HEAD_body
      rfl
    unfold do_HEAD
    rw [filter_and_exceptions_pass s req _ hp (by rw [hb]), hb]

/-- Witness for the amended C6 theorem at concrete inputs. -/
theorem get_head_outbound_bare_witness :
    filterPass (sOpen true) reqA = true ∧
    (do_GET (sOpen true) reqA cacheNone originOK).originCalls = [bareGet reqA.path] ∧
    (do_HEAD (sOpen true) reqA
        (fun _ => FetchResult.ok 200 [("Content-Type", "text/plain")]
          [104, 101, 108, 108, 111])).sends =
      [Sent.response 200 (defaultReason 200) [("Content-Type", "text/plain")] []] := by
  have h := get_head_outbound_bare (sOpen true) reqA cacheNone originOK
    200 [("Content-Type", "text/plain")] [104, 101, 108, 108, 111] rfl
  exact ⟨rfl, rfl, h.2.2.2.2⟩

/-- C7 counterexample: a PUT whose client declares Content-Length 5 while
only 3 bytes are readable forwards the inbound Content-Length "5" verbatim
in the outbound header dict, alongside a 3-byte body — the header is copied,
not recomputed from the actual body length, refuting the claim for PUT. -/
theorem put_content_length_copied_verbatim :
    (do_PUT (sOpen true) reqBody originOK).originCalls.map
        (fun r => (r.headers, r.body)) =
      [([("Content-Type", some "text/plain"), ("Content-Length", some "5")],
        some [104, 105, 33])] ∧
    some "5" ≠ some (toString ([104, 105, 33] : List Nat).length) :=
  ⟨rfl, by decide⟩

lemma relay_origin (outReq : OutRequest) (fr : FetchResult) :
    ∀ r ∈ (relay outReq fr).originCalls, r = outReq := by
  cases fr <;> simp [relay]

lemma do_POST_body_origin (req : InRequest) (o : OutRequest → FetchResult)
    (cl : String) (n : Int)
    (hcl : headerGet req.headers "Content-Length" = some cl)
    (hn : pyIntStr cl = some n) :
    ∀ r ∈ (do_POST_body req o).originCalls,
      r = { method := "POST", url := req.path,
            headers := [("Content-Type", headerGet req.headers "Content-Type"),
                        ("Content-Length",
                         some (toString (pyRead req.bodyStream n).length))],
            body := some (pyRead req.bodyStream n) } := by
  unfold do_POST_body
  rw [hcl]
  dsimp only
  rw [hn]
  exact relay_origin _ _

lemma do_PUT_body_origin (req : InRequest) (o : OutRequest → FetchResult)
    (cl : String) (n : Int)
    (hcl : headerGet req.headers "Content-Length" = some cl)
    (hn : pyIntStr cl = some n) :
    ∀ r ∈ (do_PUT_body req o).originCalls,
      r = { method := "PUT", url := req.path,
            headers := (pyDict req.headers).map (fun p => (p.1, some p.2)),
            body := some (pyRead req.bodyStream n) } := by
  unfold do_PUT_body
  rw [hcl]
  dsimp only
  rw [hn]
  exact relay_origin _ _

/-- C7 (amended): a POST or PUT that passes the filter forwards the body
actually read from the inbound stream; POST sends a header dict whose
Content-Length is recomputed as the length of that body, while PUT copies
every inbound header verbatim into the outbound dict — its Content-Length
is the value sent by the client, not recomputed. -/
theorem post_put_body_forwarding (s : Settings) (req : InRequest)
    (o : OutRequest → FetchResult) (cl : String) (n : Int)
    (hp : filterPass s req = true)
    (hcl : headerGet req.headers "Content-Length" = some cl)
    (hn : pyIntStr cl = some n) :
    (∀ r ∈ (do_POST s req o).originCalls,
       r.body = some (pyRead req.bodyStream n) ∧
       r.headers = [("Content-Type", headerGet req.headers "Content-Type"),
                    ("Content-Length",
                     some (toString (pyRead req.bodyStream n).length))]) ∧
    (∀ r ∈ (do_PUT s req o).originCalls,
       r.body = some (pyRead req.bodyStream n) ∧
       r.headers = (pyDict req.headers).map (fun p => (p.1, some p.2))) := by
  have h1 := (filter_and_exceptions_trace s req (do_POST_body req o) hp).2
  have h2 := (filter_and_exceptions_trace s req (do_PUT_body req o) hp).2
  constructor
  · intro r hr
    rw [do_POST] at hr
    rw [h1] at hr
    rw [do_POST_body_origin req o cl n hcl hn r hr]
    exact ⟨rfl, rfl⟩
  · intro r hr
    rw [do_PUT] at hr
    rw [h2] at hr
    rw [do_PUT_body_origin req o cl n hcl hn r hr]
    exact ⟨rfl, rfl⟩

/-- Witness for the amended C7 theorem at the concrete mismatched request. -/
theorem post_put_body_forwarding_witness :
    filterPass (sOpen true) reqBody = true ∧
    headerGet reqBody.headers "Content-Length" = some "5" ∧
    pyIntStr "5" = some 5 ∧
    (do_POST (sOpen true) reqBody originOK).originCalls.map
        (fun r => (r.headers, r.body)) =
      [([("Content-Type", some "text/plain"), ("Content-Length", some "3")],
        some [104, 105, 33])] := by
  refine ⟨rfl, by decide, by decide, ?_⟩
  have h := (post_put_body_forwarding (sOpen true) reqBody originOK "5" 5
    rfl (by decide) (by decide)).1
  have he : (do_POST (sOpen true) reqBody originOK).originCalls =
      [{ method := "POST", url := reqBody.path,
         headers := [("Content-Type", some "text/plain"), ("Content-Length", some "3")],
         body := some [104, 105, 33] }] := rfl
  rw [he]
  have hm := h _ (by rw [he]; exact List.mem_singleton.mpr rfl)
  simp [List.map_cons]

/-- C8 counterexample: a request whose target URL has no parseable hostname
is rejected 403 by the filter whenever the URL whitelist is non-empty
(`None` is absent from any whitelist), refuting "such a request is never
rejected with 403 by the filter regardless of the contents of the whitelist
and blacklist". -/
theorem nohost_rejected_by_filter :
    reqNoHost.hostname = none ∧
    filter_request_url sUrlWl reqNoHost.hostname = false ∧
    (do_GET sUrlWl reqNoHost cacheNone originOK).sends =
      [Sent.error 403 "Access Denied"] :=
  ⟨rfl, rfl, rfl⟩

/-- C8 (amended): a request whose target URL has no parseable hostname is a
filter decision when the URL whitelist is non-empty — it is rejected 403 —
while with an empty URL whitelist it always passes the URL filter (a missing
hostname is never in the blacklist) and the parse failure then surfaces
through the error mapping as 400 when `urlopen` raises ValueError on the
unparseable target. -/
theorem nohost_filter_or_parse_failure (s : Settings) (req : InRequest)
    (g : String → Option CacheEntry)
    (hh : req.hostname = none)
    (hip : filter_request_ip s req.clientIP = true) :
    (s.url_whitelist ≠ [] → ∀ o, do_GET s req g o = rejectEffects req) ∧
    (s.url_whitelist = [] → filter_request_url s req.hostname = true) ∧
    (s.url_whitelist = [] → g req.path = none →
      (do_GET s req g (fun _ => FetchResult.err
          (PyExn.valueError "unknown url type"))).sends =
        [Sent.error 400 "Bad Request"]) := by
  refine ⟨?_, ?_, ?_⟩
  · intro hw o
    have hu : filter_request_url s req.hostname = false := by
      rw [hh, filter_request_url_eq]
      simp [omem, List.isEmpty_iff, hw]
    unfold do_GET
    exact filter_and_exceptions_reject s req _ (by unfold filterPass; rw [hip, hu]; rfl)
  · intro hw
    rw [hh, filter_request_url_eq]
    simp [omem, hw]
  · intro hw hmiss
    have hu : filter_request_url s req.hostname = true := by
      rw [hh, filter_request_url_eq]
      simp [omem, hw]
    have hp : filterPass s req = true := by
      unfold filterPass
      rw [hip, hu]
      rfl
    exact (do_GET_err_sends s req g (PyExn.valueError "unknown url type") hp hmiss).1

/-- Witness for the amended C8 theorem at concrete inputs: the whitelisted
setting rejects 403; the open setting passes the URL filter and maps the
ValueError from the unparseable target to 400. -/
theorem nohost_filter_or_parse_failure_witness :
    reqNoHost.hostname = none ∧
    filter_request_ip sUrlWl reqNoHost.clientIP = true ∧
    (do_GET sUrlWl reqNoHost cacheNone originOK = rejectEffects reqNoHost) ∧
    filter_request_url (sOpen true) reqNoHost.hostname = true ∧
    (do_GET (sOpen true) reqNoHost cacheNone
        (fun _ => FetchResult.err (PyExn.valueError "unknown url type"))).sends =
      [Sent.error 400 "Bad Request"] :=
  ⟨rfl, rfl,
   (nohost_filter_or_parse_failure sUrlWl reqNoHost cacheNone rfl rfl).1
     (by decide) originOK,
   (nohost_filter_or_parse_failure (sOpen true) reqNoHost cacheNone rfl rfl).2.1 rfl,
   (nohost_filter_or_parse_failure (sOpen true) reqNoHost cacheNone rfl rfl).2.2 rfl rfl⟩

/-- C10: for every one of the eight implemented method handlers, both filter
dimensions are evaluated before the method body; on rejection the client
receives exactly the 403 "Access Denied" error and the method body is never
executed — the outcome is `rejectEffects` for every possible body, with no
origin call and no cache operation, so OPTIONS/TRACE/CONNECT responses are
produced only for requests that pass the filter. -/
theorem filter_before_method_body (s : Settings) (req : InRequest)
    (g : String → Option CacheEntry) (o : OutRequest → FetchResult) (m : String)
    (hrej : filterPass s req = false)
    (hm : m ∈ ["GET", "POST", "DELETE", "OPTIONS", "PUT", "TRACE", "CONNECT", "HEAD"]) :
    handleMethod m s req g o = some (rejectEffects req) ∧
    (∀ body : Effects, filter_and_exceptions s req body = rejectEffects req) ∧
    (rejectEffects req).sends = [Sent.error 403 "Access Denied"] ∧
    (rejectEffects req).originCalls = [] ∧
    (rejectEffects req).cacheOps = [] := by
  have hw : ∀ body : Effects, filter_and_exceptions s req body = rejectEffects req :=
    fun body => filter_and_exceptions_reject s req body hrej
  refine ⟨?_, hw, rfl, rfl, rfl⟩
  fin_cases hm <;>
    simp [handleMethod, do_GET, do_POST, do_DELETE, do_OPTIONS, do_PUT, do_TRACE,
      do_CONNECT, do_HEAD, hw]

/-- Witness for C10: an OPTIONS request from the blacklisted client is answered
with the 403 rejection, not the synthetic 200. -/
theorem filter_before_method_body_witness :
    filterPass sBlockIP reqBlocked = false ∧
    handleMethod "OPTIONS" sBlockIP reqBlocked cacheHello originOK =
      some (rejectEffects reqBlocked) :=
  ⟨rfl,
   (filter_before_method_body sBlockIP reqBlocked cacheHello originOK "OPTIONS"
      rfl (by decide)).1⟩
